import Mathlib

/-!
Verification of the FinSight provisioning-and-build orchestration engine
(`src/build_apk.py` and `src/finsight_runner.py`) against its natural-language
specification.

The Python code is IO-bound: every external effect goes through `run_command`
(a thin wrapper over `subprocess.run`) or through filesystem predicates
(`Path.exists`, `shutil.rmtree`, `Path.mkdir`).  We embed it shallowly:

* a *world* record supplies the outcome every external call would produce
  (exit status, stdout, stderr of each command; existence of each directory);
* each Python function becomes a pure Lean function from the world to its
  return value, a trace of the external actions it performed, and the updated
  world (directory creations/removals);
* Python string operations used by the code (`strip`, `split`, `lower`,
  `startswith`, the `in` substring test) are re-implemented character by
  character with Python's semantics (restricted to the ASCII data these
  scripts handle).

`subprocess.run(..., check=True)` raises `CalledProcessError` on a nonzero
exit; `run_command` catches it and returns `(False, "", str(e))`, where
`str(e)` is CPython's rendering `Command '<cmd>' returned non-zero exit
status <n>.` (shell exit statuses are nonnegative, so we model the
returncode as a `Nat` and only this rendering arises).  This data flow is
load-bearing for several claims and is modelled exactly.
-/

/-- Python `str.strip()` whitespace test, for the ASCII characters that can
occur in the tool output handled by these scripts (space, TAB, LF, CR, VT, FF). -/
def pyWS (c : Char) : Bool :=
  c == ' ' || c == '\t' || c == '\n' || c == '\r' ||
  c == Char.ofNat 11 || c == Char.ofNat 12

/-- Python `str.strip()` on the character list of a string. -/
def pyStripChars (cs : List Char) : List Char :=
  ((cs.dropWhile pyWS).reverse.dropWhile pyWS).reverse

/-- Python `s.strip()`. -/
def pyStrip (s : String) : String := ⟨pyStripChars s.data⟩

/-- Python `s.lower()` (ASCII). -/
def pyLower (s : String) : String := ⟨s.data.map Char.toLower⟩

/-- Does `needle` occur at the head of `hay`? (helper for the substring test). -/
def chIsPrefix : List Char → List Char → Bool
  | [], _ => true
  | _ :: _, [] => false
  | a :: as, b :: bs => a == b && chIsPrefix as bs

/-- Does `needle` occur anywhere in `hay`? -/
def chContains (needle : List Char) : List Char → Bool
  | [] => chIsPrefix needle []
  | hay@(_ :: rest) => chIsPrefix needle hay || chContains needle rest

/-- Python `needle in hay` on strings. -/
def pyIn (needle hay : String) : Bool := chContains needle.data hay.data

/-- Python `s.startswith(c)` for a one-character prefix. -/
def pyStartsWith (s : String) (c : Char) : Bool :=
  match s.data with
  | [] => false
  | a :: _ => a == c

/-- Python `s.split(sep)` for a one-character separator, on character lists:
`split` never returns an empty list and keeps empty fields. -/
def splitChar (c : Char) : List Char → List (List Char)
  | [] => [[]]
  | a :: as =>
    let r := splitChar c as
    if a == c then [] :: r
    else
      match r with
      | [] => [[a]]
      | h :: t => (a :: h) :: t

/-- Python `s.split(sep)`, joining a one-character separator, inverse of
`splitChar` on separator-free pieces. -/
def joinChar (c : Char) : List (List Char) → List Char
  | [] => []
  | [l] => l
  | l :: ls => l ++ c :: joinChar c ls

/-- Python `stdout.split(nl)` lifted to `String`. -/
def pySplitNL (s : String) : List String :=
  (splitChar '\n' s.data).map (fun cs => (⟨cs⟩ : String))

/-- The apostrophe character, used by CPython when rendering a
`CalledProcessError`. -/
def sqChar : Char := Char.ofNat 39

/-- `str(subprocess.CalledProcessError(rc, cmd))` for a nonnegative return
code: `Command '<cmd>' returned non-zero exit status <rc>.` -/
def calledProcessErrorStr (cmd : String) (rc : Nat) : String :=
  "Command " ++ (⟨[sqChar]⟩ : String) ++ cmd ++ (⟨[sqChar]⟩ : String) ++
    " returned non-zero exit status " ++ toString rc ++ "."

/-- What one `subprocess.run` invocation would produce: the child's exit
status (nonnegative: the command is run through a shell) and its own
stdout/stderr text. -/
structure ProcResult where
  returncode : Nat
  stdout : String
  stderr : String
deriving DecidableEq

/-- `run_command(cmd, shell=True, check, env, capture_output)` from
`src/build_apk.py` lines 38-49 and `src/finsight_runner.py` lines 51-62
(the two files contain the same function).

With `check=True`, `subprocess.run` raises `CalledProcessError` on a nonzero
exit *before* the tuple is built; the wrapper catches it and returns
`(False, "", str(e))` — this happens whether or not output was captured.
Otherwise the tuple `(returncode == 0, stdout, stderr)` is returned, with
stdout/stderr the captured text when `capture_output=True` and empty strings
when output was inherited. -/
def run_command (cmd : String) (r : ProcResult) (check capture : Bool) :
    Bool × String × String :=
  if check && (r.returncode != 0) then
    (false, "", calledProcessErrorStr cmd r.returncode)
  else if capture then
    (r.returncode == 0, r.stdout, r.stderr)
  else
    (r.returncode == 0, "", "")

/-! ## Build orchestrator (`build_apk` in both files) -/

/-- The APK build variant (`build_type` in the source). -/
inductive Variant
  | debug
  | release
deriving DecidableEq

/-- The hardcoded project directory (`self.project_dir`). -/
def projectDir : String := "/workspaces/FinSight-Automated-Expense-Recognition"

/-- The hardcoded Flutter binary path (`self.flutter_dir / "bin" / "flutter"`). -/
def flutterBin : String := "/tmp/flutter/bin/flutter"

/-- The variant-named artifact path
`project_dir / "build" / "app" / "outputs" / "flutter-apk" / f"app-X.apk"`. -/
def apkPath : Variant → String
  | .release => projectDir ++ "/build/app/outputs/flutter-apk/app-release.apk"
  | .debug => projectDir ++ "/build/app/outputs/flutter-apk/app-debug.apk"

/-- The recoverable-failure classifier inlined in both `build_apk` bodies:
`"R8" in stderr or "minify" in stderr.lower()`. -/
def markerMatch (stderr : String) : Bool :=
  pyIn "R8" stderr || pyIn "minify" (pyLower stderr)

/-- Return value of `build_apk`: the Python function returns the pair
`(success, apk_path | None)`; on the success path it also reads
`apk_path.stat().st_size` and reports it (the model records that byte count
in `reportedSize`; the source divides it by 1024*1024 only to format the
printed message). -/
structure BuildResult where
  ok : Bool
  apk : Option String
  reportedSize : Option Nat
deriving DecidableEq

/-- The body of `build_apk` (`src/build_apk.py` lines 245-277,
`src/finsight_runner.py` lines 303-336; identical control flow), abstracted
over what its one `run_command(build_cmd, env, capture_output=True)` call
returns (`resp`), the command text per variant (`cmdOf`), and the filesystem
facts about the artifact (`apkEx`, `size`).

The value is `none` when the Python call would not return: the source
recursion `return self.build_apk("debug")` is guarded only by the stderr
marker test — there is no check of the current variant — so the model counts
recursion depth with `fuel`; exhausting the fuel corresponds to Python's
unbounded recursion (a `RecursionError` in practice).  The second component
of a returned value is the list of build commands that were invoked, in
order. -/
def build_apk_body (resp : Variant → Bool × String × String)
    (cmdOf : Variant → String) (apkEx : Variant → Bool) (size : Variant → Nat) :
    Nat → Variant → Option (BuildResult × List String)
  | 0, _ => none
  | Nat.succ fuel, v =>
    let r := resp v
    if r.1 then
      if apkEx v then
        some (⟨true, some (apkPath v), some (size v)⟩, [cmdOf v])
      else
        some (⟨false, none, none⟩, [cmdOf v])
    else if markerMatch r.2.2 then
      match build_apk_body resp cmdOf apkEx size fuel Variant.debug with
      | none => none
      | some (res, tr) => some (res, cmdOf v :: tr)
    else
      some (⟨false, none, none⟩, [cmdOf v])

/-- External facts consulted by one `build_apk` run: what the build tool
does for each variant, and whether/with which size the variant-named
artifact exists afterwards. -/
structure BuildWorld where
  releaseProc : ProcResult
  debugProc : ProcResult
  releaseApk : Bool
  debugApk : Bool
  releaseSize : Nat
  debugSize : Nat
deriving DecidableEq

/-- Outcome the build tool produces for a variant. -/
def BuildWorld.procOf (w : BuildWorld) : Variant → ProcResult
  | .release => w.releaseProc
  | .debug => w.debugProc

/-- Whether the variant-named artifact exists after the tool ran. -/
def BuildWorld.apkEx (w : BuildWorld) : Variant → Bool
  | .release => w.releaseApk
  | .debug => w.debugApk

/-- The artifact's `stat().st_size`. -/
def BuildWorld.apkSize (w : BuildWorld) : Variant → Nat
  | .release => w.releaseSize
  | .debug => w.debugSize

namespace FlutterAPKBuilder

/-- The build command of `src/build_apk.py` lines 252-255: note the release
command passes no flag at all (plain `flutter build apk`). -/
def buildCmd : Variant → String
  | .release => "cd " ++ projectDir ++ " && " ++ flutterBin ++ " build apk"
  | .debug => "cd " ++ projectDir ++ " && " ++ flutterBin ++ " build apk --debug"

/-- `FlutterAPKBuilder.build_apk` (`src/build_apk.py` lines 245-277): the
body instantiated with its actual `run_command` call — `capture_output=True`
and the default `check=True`, so on a nonzero exit the stderr the body
inspects is the caught exception's rendering, not the tool's stderr. -/
def build_apk (w : BuildWorld) : Nat → Variant → Option (BuildResult × List String) :=
  build_apk_body (fun v => run_command (buildCmd v) (w.procOf v) true true)
    buildCmd w.apkEx w.apkSize

end FlutterAPKBuilder

namespace FinSightRunner

/-- The build command of `src/finsight_runner.py` lines 309-313 (here the
release command does pass `--release`). -/
def buildCmd : Variant → String
  | .release => "cd " ++ projectDir ++ " && " ++ flutterBin ++ " build apk --release"
  | .debug => "cd " ++ projectDir ++ " && " ++ flutterBin ++ " build apk --debug"

/-- `FinSightRunner.build_apk` (`src/finsight_runner.py` lines 303-336),
instantiated exactly like `FlutterAPKBuilder.build_apk`. -/
def build_apk (w : BuildWorld) : Nat → Variant → Option (BuildResult × List String) :=
  build_apk_body (fun v => run_command (buildCmd v) (w.procOf v) true true)
    buildCmd w.apkEx w.apkSize

end FinSightRunner

/-! ## Toolchain resolver and setup pipeline (`src/finsight_runner.py`;
`src/build_apk.py` duplicates the same functions with cosmetic differences) -/

/-- Classification of the external actions the resolver performs, following
the spec's `ToolchainComponent` vocabulary: `verify` is a captured
version/diagnostic command, `install` is a clone/download/extract/package
invocation, `remove` is an `rmtree` of an installation tree, `config` is a
best-effort configuration command whose exit status the source discards. -/
inductive ExtAction
  | verify (component : String)
  | install (component : String)
  | remove (component : String)
  | config (component : String)
deriving DecidableEq

/-- Environment facts consulted and mutated by the setup functions.  Each
`...Ok` field states that the corresponding external command exits with
status zero (every one of these call sites uses `check=True`, under which
`run_command`'s boolean is exactly `returncode == 0`); the `...Exists`
fields are the `Path.exists()` predicates. -/
structure TWorld where
  javaHomeExists : Bool
  aptInstallOk : Bool
  javaVersionOk : Bool
  flutterDirExists : Bool
  flutterVersionOk : Bool
  cloneOk : Bool
  sdkToolsExist : Bool
  sdkVersionOk : Bool
  wgetOk : Bool
  unzipOk : Bool
  licenseOk : Bool
  sdkComponentsOk : Bool
  configSdkOk : Bool
  pubGetOk : Bool
deriving DecidableEq

/-- Result of one setup function: its boolean return value, the external
actions it performed in order, and the world after its filesystem effects. -/
structure StepRes where
  ok : Bool
  acts : List ExtAction
  world : TWorld
deriving DecidableEq

/-- `check_java` (`src/finsight_runner.py` lines 77-91): if the JVM
directory is missing, run the package-manager install and fail when it
fails; in every surviving case run `java -version` (captured) and return its
success. -/
def check_java (w : TWorld) : StepRes :=
  if w.javaHomeExists then
    ⟨w.javaVersionOk, [.verify "java"], w⟩
  else if w.aptInstallOk then
    ⟨w.javaVersionOk, [.install "java-apt", .verify "java"],
      {w with javaHomeExists := true}⟩
  else
    ⟨false, [.install "java-apt"], w⟩

/-- `setup_flutter` (`src/finsight_runner.py` lines 93-126): directory
present and `flutter --version` succeeding means done; present but failing
verification means `rmtree` then fall through to the clone; after a
successful clone the two configuration commands run with their results
discarded and the function returns success with no re-verification. -/
def setup_flutter (w : TWorld) : StepRes :=
  if w.flutterDirExists then
    if w.flutterVersionOk then
      ⟨true, [.verify "flutter"], w⟩
    else if w.cloneOk then
      ⟨true, [.verify "flutter", .remove "flutter", .install "flutter-clone",
              .config "flutter-noanalytics", .config "flutter-precache"],
        {w with flutterDirExists := true}⟩
    else
      ⟨false, [.verify "flutter", .remove "flutter", .install "flutter-clone"],
        {w with flutterDirExists := false}⟩
  else if w.cloneOk then
    ⟨true, [.install "flutter-clone", .config "flutter-noanalytics",
            .config "flutter-precache"],
      {w with flutterDirExists := true}⟩
  else
    ⟨false, [.install "flutter-clone"], w⟩

/-- `setup_android_sdk` (`src/finsight_runner.py` lines 128-175): same
shape as `setup_flutter` for the cmdline-tools; on the install path the
`wget` download is followed by `mkdir(parents=True, exist_ok=True)` — which
creates the tools directory even when the subsequent unzip/move fails — and
there is again no re-verification after a fresh install. -/
def setup_android_sdk (w : TWorld) : StepRes :=
  if w.sdkToolsExist then
    if w.sdkVersionOk then
      ⟨true, [.verify "sdkmanager"], w⟩
    else if w.wgetOk then
      if w.unzipOk then
        ⟨true, [.verify "sdkmanager", .remove "android-sdk",
                .install "sdk-download", .install "sdk-extract"],
          {w with sdkToolsExist := true}⟩
      else
        ⟨false, [.verify "sdkmanager", .remove "android-sdk",
                 .install "sdk-download", .install "sdk-extract"],
          {w with sdkToolsExist := true}⟩
    else
      ⟨false, [.verify "sdkmanager", .remove "android-sdk", .install "sdk-download"],
        {w with sdkToolsExist := false}⟩
  else if w.wgetOk then
    if w.unzipOk then
      ⟨true, [.install "sdk-download", .install "sdk-extract"],
        {w with sdkToolsExist := true}⟩
    else
      ⟨false, [.install "sdk-download", .install "sdk-extract"],
        {w with sdkToolsExist := true}⟩
  else
    ⟨false, [.install "sdk-download"], w⟩

/-- `install_sdk_components` (`src/finsight_runner.py` lines 177-205): runs
the license-acceptance command with its result discarded (the world's
`licenseOk` field is correspondingly unread), then unconditionally runs the
one batched `sdkmanager "platform-tools" "platforms;android-34"
"build-tools;34.0.0"` invocation and returns its success.  There is no
presence or verification check: both commands run on every invocation. -/
def install_sdk_components (w : TWorld) : StepRes :=
  ⟨w.sdkComponentsOk, [.config "sdk-licenses", .install "sdk-components"], w⟩

/-- `configure_flutter_sdk` (`src/finsight_runner.py` lines 207-219). -/
def configure_flutter_sdk (w : TWorld) : StepRes :=
  ⟨w.configSdkOk, [.config "flutter-android-sdk"], w⟩

/-- `get_flutter_dependencies` (`src/finsight_runner.py` lines 221-234):
`flutter pub get` fetches the project's packages. -/
def get_flutter_dependencies (w : TWorld) : StepRes :=
  ⟨w.pubGetOk, [.install "pub-get"], w⟩

/-- The four toolchain-resolution steps run in pipeline order with the
pipeline's fail-fast composition (the first four steps of `run_setup`),
threading the world through. -/
def resolver_run (w : TWorld) : StepRes :=
  let r1 := check_java w
  if r1.ok then
    let r2 := setup_flutter r1.world
    if r2.ok then
      let r3 := setup_android_sdk r2.world
      if r3.ok then
        let r4 := install_sdk_components r3.world
        ⟨r4.ok, r1.acts ++ r2.acts ++ r3.acts ++ r4.acts, r4.world⟩
      else ⟨false, r1.acts ++ r2.acts ++ r3.acts, r3.world⟩
    else ⟨false, r1.acts ++ r2.acts, r2.world⟩
  else ⟨false, r1.acts, r1.world⟩

/-- Result of a pipeline run: overall success, the failing step's name if
any, the names of the steps that were actually invoked, the external actions
performed, and the final world. -/
structure PipeRes where
  ok : Bool
  failedStep : Option String
  invoked : List String
  acts : List ExtAction
  world : TWorld
deriving DecidableEq

/-- The `for step_name, step_func in steps:` loop shared by
`FinSightRunner.run_setup` and `FlutterAPKBuilder.run`: run each named step
in order, stop at the first step returning false (the modelled steps do not
raise; the raising case is covered by the generic `runSteps` below). -/
def runPipeline : List (String × (TWorld → StepRes)) → TWorld → PipeRes
  | [], w => ⟨true, none, [], [], w⟩
  | (n, f) :: rest, w =>
    let r := f w
    if r.ok then
      let p := runPipeline rest r.world
      ⟨p.ok, p.failedStep, n :: p.invoked, r.acts ++ p.acts, p.world⟩
    else
      ⟨false, some n, [n], r.acts, r.world⟩

/-- The step list of `FinSightRunner.run_setup` (`src/finsight_runner.py`
lines 368-375). -/
def setupSteps : List (String × (TWorld → StepRes)) :=
  [("Checking Java", check_java),
   ("Setting up Flutter", setup_flutter),
   ("Setting up Android SDK", setup_android_sdk),
   ("Installing SDK components", install_sdk_components),
   ("Configuring Flutter", configure_flutter_sdk),
   ("Getting dependencies", get_flutter_dependencies)]

/-- `FinSightRunner.run_setup` (`src/finsight_runner.py` lines 364-392). -/
def run_setup (w : TWorld) : PipeRes := runPipeline setupSteps w

/-! ## Generic step pipeline (the loop itself, with its `except` clause) -/

/-- What a step's zero-argument action does when invoked: return `True`,
return a falsy value, or raise an exception with a message. -/
inductive StepOutcome
  | ok
  | failed
  | raised (msg : String)
deriving DecidableEq

/-- The pipeline loop of `run_setup`/`run` over abstract steps:
`try: if not step_func(): return False / except Exception: return False`.
A raised exception is caught and converted into a failure of that step —
it does not escape the loop.  Returns overall success, the failing step's
name, and the names of the steps that were invoked, in order. -/
def runSteps : List (String × StepOutcome) → Bool × Option String × List String
  | [] => (true, none, [])
  | (n, a) :: rest =>
    match a with
    | .ok =>
      let r := runSteps rest
      (r.1, r.2.1, n :: r.2.2)
    | .failed => (false, some n, [n])
    | .raised _ => (false, some n, [n])

/-! ## Device manager (`src/finsight_runner.py` lines 251-362) -/

/-- External facts for the device-gated operations: what each of the three
commands would do. -/
structure DevWorld where
  adbDevices : ProcResult
  flutterRun : ProcResult
  adbInstall : ProcResult
deriving DecidableEq

/-- The device-listing command `f"{adb} devices -l"`. -/
def adbDevicesCmd : String := "/tmp/android-sdk/platform-tools/adb devices -l"

/-- The attached-run command `f"cd {project_dir} && {flutter_bin} run"`. -/
def flutterRunCmd : String := "cd " ++ projectDir ++ " && " ++ flutterBin ++ " run"

/-- The install command `f"{adb} install -r {apk_path}"`. -/
def adbInstallCmd (apk : String) : String :=
  "/tmp/android-sdk/platform-tools/adb install -r " ++ apk

/-- The filter of `check_connected_devices`:
`line.strip() and not line.startswith('*')`. -/
def devLinePred (l : String) : Bool :=
  !(pyStrip l == "") && !(pyStartsWith l '*')

/-- The parsing inside `check_connected_devices` lines 259-260:
`lines = stdout.strip().split(nl)` then keep the lines after the header that
are nonempty once stripped and do not start with an asterisk. -/
def parse_devices (stdout : String) : List String :=
  ((pySplitNL (pyStrip stdout)).drop 1).filter devLinePred

/-- `check_connected_devices` (`src/finsight_runner.py` lines 251-274):
run `adb devices -l` captured; if it succeeded and printed anything, parse
the device lines and return `(True, count)` when at least one was found;
in every other case return `(False, 0)`. -/
def check_connected_devices (w : DevWorld) : Bool × Nat :=
  let r := run_command adbDevicesCmd w.adbDevices true true
  if r.1 && !(r.2.1 == "") then
    let devices := parse_devices r.2.1
    if devices.isEmpty then (false, 0) else (true, devices.length)
  else (false, 0)

/-- `run_app` (`src/finsight_runner.py` lines 276-301): gate on device
presence, then run `flutter run` in the foreground (`check=False`, output
inherited) and return its success.  The second component lists the external
commands invoked, in order. -/
def run_app (w : DevWorld) : Bool × List String :=
  let c := check_connected_devices w
  if c.1 then
    let r := run_command flutterRunCmd w.flutterRun false false
    (r.1, [adbDevicesCmd, flutterRunCmd])
  else
    (false, [adbDevicesCmd])

/-- `install_apk` (`src/finsight_runner.py` lines 338-362): gate on device
presence, then run `adb install -r <apk>` captured and return its
success. -/
def install_apk (w : DevWorld) (apk : String) : Bool × List String :=
  let c := check_connected_devices w
  if c.1 then
    let r := run_command (adbInstallCmd apk) w.adbInstall true true
    (r.1, [adbDevicesCmd, adbInstallCmd apk])
  else
    (false, [adbDevicesCmd])

/-! ## Concrete environments used by individual claims -/

/-- A release build failing with an R8/minification message on the tool's
stderr, whose debug build also fails; no artifact is produced. -/
def c1World : BuildWorld :=
  ⟨⟨1, "", "FAILURE: Execution failed for task :app:minifyReleaseWithR8"⟩,
   ⟨1, "", "FAILURE: Execution failed for task :app:mergeDebugResources"⟩,
   false, false, 0, 0⟩

/-- A hypothetical `run_command` outcome in which the caller would actually
receive a marker-matching stderr text (as it would if `run_command` passed
the tool's stderr through on failure). -/
def c1DebugResp : Variant → Bool × String × String :=
  fun _ => (false, "", "R8 minify error")

/-- A fully provisioned environment in which the batched SDK-component
install exits nonzero. -/
def c2World : TWorld :=
  { javaHomeExists := true, aptInstallOk := true, javaVersionOk := true,
    flutterDirExists := true, flutterVersionOk := true, cloneOk := true,
    sdkToolsExist := true, sdkVersionOk := true, wgetOk := true, unzipOk := true,
    licenseOk := true, sdkComponentsOk := false, configSdkOk := true, pubGetOk := true }

/-- Like `c2World` but with the license command failing too, to show the
license exit status is ignored. -/
def c2WitWorld : TWorld :=
  { c2World with licenseOk := false }

/-- A fully provisioned environment: every component present, every
verification command succeeding. -/
def c3World : TWorld :=
  { javaHomeExists := true, aptInstallOk := true, javaVersionOk := true,
    flutterDirExists := true, flutterVersionOk := true, cloneOk := true,
    sdkToolsExist := true, sdkVersionOk := true, wgetOk := true, unzipOk := true,
    licenseOk := true, sdkComponentsOk := true, configSdkOk := true, pubGetOk := true }

/-- A fully provisioned environment distinct from `c3World` (the install
commands, never reached, are marked failing). -/
def c3WitWorld : TWorld :=
  { c3World with aptInstallOk := false, cloneOk := false, wgetOk := false,
                 unzipOk := false }

/-- A corrupted Flutter install: the directory exists but `flutter --version`
fails; the re-clone would succeed. -/
def c4World : TWorld :=
  { c3World with flutterVersionOk := false }

/-- A corrupted Flutter install whose re-clone also fails. -/
def c4WitWorld : TWorld :=
  { c3World with flutterVersionOk := false, cloneOk := false }

/-- A corrupted Android SDK cmdline-tools install: the directory exists but
`sdkmanager --version` fails; the re-download and re-extract would
succeed. -/
def c4SdkWorld : TWorld :=
  { c3World with sdkVersionOk := false }

/-- A corrupted Android SDK cmdline-tools install whose reinstall fails at
the unzip/move stage (the download succeeds). -/
def c4SdkWitWorld : TWorld :=
  { c3World with sdkVersionOk := false, unzipOk := false }

/-- A build world whose release build succeeds and leaves the artifact in
place. -/
def c6World : BuildWorld :=
  ⟨⟨0, "Built build/app/outputs/flutter-apk/app-release.apk", ""⟩,
   ⟨0, "", ""⟩, true, true, 40000000, 41000000⟩

/-- A device world with no attached device: `adb devices -l` prints only the
header line. -/
def c8NoDevWorld : DevWorld :=
  ⟨⟨0, "List of devices attached", ""⟩, ⟨0, "", ""⟩, ⟨0, "", ""⟩⟩

/-- A device world with one attached device and succeeding run/install
commands. -/
def c8DevWorld : DevWorld :=
  ⟨⟨0, "List of devices attached\nemulator-5554\tdevice", ""⟩,
   ⟨0, "", ""⟩, ⟨0, "Success", ""⟩⟩

/-- The device lines of the C9 example: two well-formed device lines and one
advisory line prefixed with an asterisk. -/
def c9Lines : List String :=
  ["emulator-5554\tdevice product:sdk_gphone64", "0A1B2C3D\tdevice usb:1-4",
   "* daemon started successfully"]

/-- A device world whose `adb devices -l` output is a header line, two
device lines and one advisory line. -/
def c9World : DevWorld :=
  ⟨⟨0, "List of devices attached\nemulator-5554\tdevice product:sdk_gphone64\n0A1B2C3D\tdevice usb:1-4\n* daemon started successfully", ""⟩,
   ⟨0, "", ""⟩, ⟨0, "", ""⟩⟩

/-- A release build failing with a minification marker on the tool's own
stderr while the debug build would succeed and leave its artifact behind. -/
def c10World : BuildWorld :=
  ⟨⟨1, "", "Execution failed for task :app:minifyReleaseWithR8"⟩,
   ⟨0, "Built build/app/outputs/flutter-apk/app-debug.apk", ""⟩,
   false, true, 0, 52428800⟩

/-! ## Helper lemmas about the Python split on a separator character -/

/-- Splitting a list that does not contain the separator yields that list as
the single field. -/
theorem splitChar_no_sep (c : Char) (l : List Char) (h : c ∉ l) :
    splitChar c l = [l] := by
  induction l with
  | nil => rfl
  | cons a as ih =>
    have ha : (a == c) = false := by
      simp only [beq_eq_false_iff_ne]
      exact fun e => h (e ▸ List.mem_cons_self a as)
    have has : c ∉ as := fun m => h (List.mem_cons_of_mem a m)
    simp [splitChar, ha, ih has]

/-- Splitting peels off a leading separator-free field. -/
theorem splitChar_append (c : Char) (l rest : List Char) (h : c ∉ l) :
    splitChar c (l ++ c :: rest) = l :: splitChar c rest := by
  induction l with
  | nil => simp [splitChar]
  | cons a as ih =>
    have ha : (a == c) = false := by
      simp only [beq_eq_false_iff_ne]
      exact fun e => h (e ▸ List.mem_cons_self a as)
    have has : c ∉ as := fun m => h (List.mem_cons_of_mem a m)
    have ih2 := ih has
    simp only [List.cons_append, splitChar, List.append_eq, ha, ih2]
    simp

/-- `split` is a left inverse of joining separator-free fields. -/
theorem splitChar_joinChar (c : Char) (l : List Char) (ls : List (List Char))
    (hl : c ∉ l) (hls : ∀ m ∈ ls, c ∉ m) :
    splitChar c (joinChar c (l :: ls)) = l :: ls := by
  induction ls generalizing l with
  | nil => exact splitChar_no_sep c l hl
  | cons m ms ih =>
    have hm : c ∉ m := hls m (by simp)
    have hms : ∀ x ∈ ms, c ∉ x := fun x hx => hls x (by simp [hx])
    have hj : joinChar c (l :: m :: ms) = l ++ c :: joinChar c (m :: ms) := rfl
    rw [hj, splitChar_append c l _ hl, ih m hm hms]

/-! ## Claim theorems -/

/-- C1: the claim states that `build_apk`'s fallback retry happens exactly
when the captured stderr matches the minification signature AND the variant
is release, that a debug failure is never retried, and that a release build
with matching stderr whose debug retry fails yields one failure after
exactly one fallback attempt.  The code contradicts this twice.  First
conjunct: at `c1World` — the release build exits 1 with an R8 message on the
tool's stderr — the orchestrator returns a single failure having invoked
only the release build command: no fallback attempt occurs, because the
stderr the body inspects is the caught `CalledProcessError` rendering, which
never contains the markers.  Second conjunct: the recursion
`return self.build_apk("debug")` is not guarded by the variant, so on any
`run_command` outcome whose stderr does match the marker on a debug build
(`c1DebugResp`), the body recurses forever — no amount of fuel produces a
result, the claimed depth-1 bound fails. -/
theorem c1_fallback_never_taken_and_unguarded :
    (FlutterAPKBuilder.build_apk c1World 9 .release =
      some (⟨false, none, none⟩, [FlutterAPKBuilder.buildCmd .release])) ∧
    (∀ fuel, build_apk_body c1DebugResp FlutterAPKBuilder.buildCmd
        (fun _ => false) (fun _ => 0) fuel .debug = none) := by
  refine ⟨by decide, ?_⟩
  intro fuel
  induction fuel with
  | zero => rfl
  | succ n ih =>
    have h : build_apk_body c1DebugResp FlutterAPKBuilder.buildCmd
        (fun _ => false) (fun _ => 0) (n+1) .debug =
        match build_apk_body c1DebugResp FlutterAPKBuilder.buildCmd
          (fun _ => false) (fun _ => 0) n .debug with
        | none => none
        | some (res, tr) => some (res, FlutterAPKBuilder.buildCmd .debug :: tr) := rfl
    rw [h, ih]

/-- C2 counterexample: the claim states that a nonzero exit of the batched
SDK-component install is a soft failure past which the pipeline continues.
In the fully provisioned world `c2World` whose batched install exits
nonzero, `run_setup` stops exactly there: the overall result is failure at
"Installing SDK components" and the two later steps ("Configuring Flutter",
"Getting dependencies") are never invoked. -/
theorem c2_counterexample :
    run_setup c2World =
      ⟨false, some "Installing SDK components",
       ["Checking Java", "Setting up Flutter", "Setting up Android SDK",
        "Installing SDK components"],
       [.verify "java", .verify "flutter", .verify "sdkmanager",
        .config "sdk-licenses", .install "sdk-components"], c2World⟩ := by decide

/-- C2 amended: a nonzero exit of the batched SDK-component install makes
`install_sdk_components` return failure, which aborts the setup pipeline at
that step — later steps never run.  Only the license-acceptance command's
exit status is ignored (the world's `licenseOk` field does not appear in the
hypotheses or the conclusion). -/
theorem c2_install_failure_aborts_pipeline (w : TWorld)
    (h1 : w.javaHomeExists = true) (h2 : w.javaVersionOk = true)
    (h3 : w.flutterDirExists = true) (h4 : w.flutterVersionOk = true)
    (h5 : w.sdkToolsExist = true) (h6 : w.sdkVersionOk = true)
    (h7 : w.sdkComponentsOk = false) :
    run_setup w =
      ⟨false, some "Installing SDK components",
       ["Checking Java", "Setting up Flutter", "Setting up Android SDK",
        "Installing SDK components"],
       [.verify "java", .verify "flutter", .verify "sdkmanager",
        .config "sdk-licenses", .install "sdk-components"], w⟩ := by
  simp [run_setup, setupSteps, runPipeline, check_java, setup_flutter,
        setup_android_sdk, install_sdk_components, h1, h2, h3, h4, h5, h6, h7]

/-- C2 witness: the amended statement at `c2WitWorld`, whose license command
fails as well — the pipeline still stops at the batched install, not at the
license call. -/
theorem c2_witness :
    run_setup c2WitWorld =
      ⟨false, some "Installing SDK components",
       ["Checking Java", "Setting up Flutter", "Setting up Android SDK",
        "Installing SDK components"],
       [.verify "java", .verify "flutter", .verify "sdkmanager",
        .config "sdk-licenses", .install "sdk-components"], c2WitWorld⟩ :=
  c2_install_failure_aborts_pipeline c2WitWorld rfl rfl rfl rfl rfl rfl rfl

/-- C3 counterexample: the claim states that re-running the four toolchain
resolution steps on a fully provisioned environment performs zero install
actions on the second run.  At the fully provisioned `c3World`, the second
run's action trace contains the batched SDK-component install action:
`install_sdk_components` re-invokes the package install unconditionally on
every run. -/
theorem c3_counterexample :
    ExtAction.install "sdk-components" ∈
      (resolver_run (resolver_run c3World).world).acts := by decide

/-- C3 amended: on a fully provisioned environment (components present,
verification commands succeeding), every run of the resolution steps —
including the second, since the world is unchanged — performs exactly the
three verification calls of `check_java` / `setup_flutter` /
`setup_android_sdk`, plus the license call and exactly one install action:
the unconditional batched `sdkmanager` package install.  Not zero install
actions, one. -/
theorem c3_second_run_installs_once (w : TWorld)
    (h1 : w.javaHomeExists = true) (h2 : w.javaVersionOk = true)
    (h3 : w.flutterDirExists = true) (h4 : w.flutterVersionOk = true)
    (h5 : w.sdkToolsExist = true) (h6 : w.sdkVersionOk = true) :
    resolver_run w =
      ⟨w.sdkComponentsOk,
       [.verify "java", .verify "flutter", .verify "sdkmanager",
        .config "sdk-licenses", .install "sdk-components"], w⟩ ∧
    resolver_run (resolver_run w).world = resolver_run w := by
  have h : resolver_run w =
      ⟨w.sdkComponentsOk,
       [.verify "java", .verify "flutter", .verify "sdkmanager",
        .config "sdk-licenses", .install "sdk-components"], w⟩ := by
    simp [resolver_run, check_java, setup_flutter, setup_android_sdk,
          install_sdk_components, h1, h2, h3, h4, h5, h6]
  refine ⟨h, ?_⟩
  rw [h]
  exact h

/-- C3 witness: the amended statement at the fully provisioned
`c3WitWorld`. -/
theorem c3_witness :
    resolver_run c3WitWorld =
      ⟨true, [.verify "java", .verify "flutter", .verify "sdkmanager",
              .config "sdk-licenses", .install "sdk-components"], c3WitWorld⟩ ∧
    resolver_run (resolver_run c3WitWorld).world = resolver_run c3WitWorld :=
  c3_second_run_installs_once c3WitWorld rfl rfl rfl rfl rfl rfl

/-- C4 counterexample: the claim states that a toolchain component whose
directory exists but whose verification fails is removed, reinstalled and
then *re-verified*, with a failed post-install verification reported as
fatal.  Both corruption-recovery components violate the re-verify part.  At
`c4World` (Flutter present, `flutter --version` failing, re-clone
succeeding) `setup_flutter` reports success with the action trace
`verify, remove, install, config, config`; at `c4SdkWorld` (cmdline-tools
present, `sdkmanager --version` failing, re-download and re-extract
succeeding) `setup_android_sdk` reports success with the trace
`verify, remove, install, install`.  In each trace the only verification
precedes the install actions: nothing is verified after the fresh install,
and success is returned no matter how a re-verification would fare. -/
theorem c4_counterexample :
    setup_flutter c4World =
      ⟨true, [.verify "flutter", .remove "flutter", .install "flutter-clone",
              .config "flutter-noanalytics", .config "flutter-precache"],
       c4World⟩ ∧
    setup_android_sdk c4SdkWorld =
      ⟨true, [.verify "sdkmanager", .remove "android-sdk",
              .install "sdk-download", .install "sdk-extract"],
       c4SdkWorld⟩ := by decide

/-- C4 amended: for each of the two components with corruption recovery —
the Flutter SDK in `setup_flutter` and the Android SDK command-line tools
in `setup_android_sdk` — when the component's directory exists and its
verification command fails, the resolver removes the tree and reinstalls it
exactly once (for Flutter one clone; for the SDK one download and one
extract invocation); a failed install action is reported as a fatal failure
of the step; but there is no re-verification after a fresh install —
install success alone is reported as component success. -/
theorem c4_reinstall_without_reverify :
    (∀ w : TWorld, w.flutterDirExists = true → w.flutterVersionOk = false →
      (w.cloneOk = true →
        setup_flutter w =
          ⟨true, [.verify "flutter", .remove "flutter", .install "flutter-clone",
                  .config "flutter-noanalytics", .config "flutter-precache"],
           {w with flutterDirExists := true}⟩) ∧
      (w.cloneOk = false →
        setup_flutter w =
          ⟨false, [.verify "flutter", .remove "flutter", .install "flutter-clone"],
           {w with flutterDirExists := false}⟩)) ∧
    (∀ w : TWorld, w.sdkToolsExist = true → w.sdkVersionOk = false →
      (w.wgetOk = true → w.unzipOk = true →
        setup_android_sdk w =
          ⟨true, [.verify "sdkmanager", .remove "android-sdk",
                  .install "sdk-download", .install "sdk-extract"],
           {w with sdkToolsExist := true}⟩) ∧
      (w.wgetOk = true → w.unzipOk = false →
        setup_android_sdk w =
          ⟨false, [.verify "sdkmanager", .remove "android-sdk",
                   .install "sdk-download", .install "sdk-extract"],
           {w with sdkToolsExist := true}⟩) ∧
      (w.wgetOk = false →
        setup_android_sdk w =
          ⟨false, [.verify "sdkmanager", .remove "android-sdk",
                   .install "sdk-download"],
           {w with sdkToolsExist := false}⟩)) := by
  constructor
  · intro w h1 h2
    constructor <;> intro h <;> simp [setup_flutter, h1, h2, h]
  · intro w h1 h2
    refine ⟨?_, ?_, ?_⟩
    · intro hw hu
      simp [setup_android_sdk, h1, h2, hw, hu]
    · intro hw hu
      simp [setup_android_sdk, h1, h2, hw, hu]
    · intro hw
      simp [setup_android_sdk, h1, h2, hw]

/-- C4 witness: the amended statement at `c4WitWorld` and `c4SdkWitWorld`,
exercising the fatal branches of both components (the Flutter re-clone
fails; the SDK re-extract fails after a successful download — the `mkdir`
before the unzip leaves the tools directory in place). -/
theorem c4_witness :
    setup_flutter c4WitWorld =
      ⟨false, [.verify "flutter", .remove "flutter", .install "flutter-clone"],
       {c4WitWorld with flutterDirExists := false}⟩ ∧
    setup_android_sdk c4SdkWitWorld =
      ⟨false, [.verify "sdkmanager", .remove "android-sdk",
               .install "sdk-download", .install "sdk-extract"],
       {c4SdkWitWorld with sdkToolsExist := true}⟩ :=
  ⟨(c4_reinstall_without_reverify.1 c4WitWorld rfl rfl).2 rfl,
   (c4_reinstall_without_reverify.2 c4SdkWitWorld rfl rfl).2.1 rfl rfl⟩

/-- C5 counterexample: the claim states that with output capture the caller
receives the process's own stderr even on a nonzero exit.  At a concrete
nonzero-exit outcome of the release build command, `run_command` returns
empty stdout and the `CalledProcessError` rendering as stderr — not the
process's stderr text. -/
theorem c5_counterexample :
    run_command (FinSightRunner.buildCmd .release)
        ⟨1, "", "R8: Missing classes detected. Please add the missing classes."⟩
        true true =
      (false, "", calledProcessErrorStr (FinSightRunner.buildCmd .release) 1) ∧
    calledProcessErrorStr (FinSightRunner.buildCmd .release) 1 ≠
      "R8: Missing classes detected. Please add the missing classes." := by decide

/-- C5 amended: with output capture, a zero exit returns the buffered stdout
and stderr as text, and a nonzero exit under `check=True` (the
failOnNonZero semantics every capture call site uses) is reported as a
failure result rather than a raised fault — but that failure carries empty
stdout and the caught exception's rendering (command text plus exit status)
in place of the process's own stderr. -/
theorem c5_capture_semantics (cmd : String) (r : ProcResult)
    (check capture : Bool) :
    (r.returncode = 0 → run_command cmd r check true = (true, r.stdout, r.stderr)) ∧
    (r.returncode ≠ 0 →
      run_command cmd r true capture =
        (false, "", calledProcessErrorStr cmd r.returncode)) := by
  constructor <;> intro h <;> simp [run_command, h]

/-- C5 witness: the amended statement at concrete outcomes — a zero exit
passes the captured text through, an exit status 2 yields the converted
failure result. -/
theorem c5_witness :
    run_command "java -version" ⟨0, "openjdk 17", ""⟩ true true =
      (true, "openjdk 17", "") ∧
    run_command "java -version" ⟨2, "x", "y"⟩ true true =
      (false, "", calledProcessErrorStr "java -version" 2) :=
  ⟨(c5_capture_semantics "java -version" ⟨0, "openjdk 17", ""⟩ true true).1 rfl,
   (c5_capture_semantics "java -version" ⟨2, "x", "y"⟩ true true).2 (by decide)⟩

/-- C6: when the build tool reports success (exit status zero) the result is
gated on artifact presence — if the variant-named APK path does not exist
the build reports failure with no artifact path; if it exists the build
reports success carrying that path and the artifact's recorded byte size. -/
theorem c6_artifact_gate (w : BuildWorld) (fuel : Nat) (v : Variant)
    (hrc : (w.procOf v).returncode = 0) :
    (w.apkEx v = false →
      FinSightRunner.build_apk w (fuel+1) v =
        some (⟨false, none, none⟩, [FinSightRunner.buildCmd v])) ∧
    (w.apkEx v = true →
      FinSightRunner.build_apk w (fuel+1) v =
        some (⟨true, some (apkPath v), some (w.apkSize v)⟩,
              [FinSightRunner.buildCmd v])) := by
  constructor <;> intro h <;>
    simp [FinSightRunner.build_apk, build_apk_body, run_command, hrc, h]

/-- C6 witness: at `c6World` a successful release build with the artifact
present reports success with the release artifact path and its size. -/
theorem c6_witness :
    FinSightRunner.build_apk c6World 1 .release =
      some (⟨true, some (apkPath .release), some 40000000⟩,
            [FinSightRunner.buildCmd .release]) :=
  (c6_artifact_gate c6World 0 .release rfl).2 rfl

/-- C7: the pipeline loop runs steps strictly in order; at the first step
whose action returns false or raises, the loop reports failure naming that
step, the invoked-step trace is exactly the successful prefix plus the
failing step, and no later step is invoked; a raised exception is caught
and treated as that step's failure rather than propagated. -/
theorem c7_pipeline_fail_fast (pre : List (String × StepOutcome))
    (mid : String × StepOutcome) (post : List (String × StepOutcome))
    (hpre : ∀ s ∈ pre, s.2 = StepOutcome.ok) (hmid : mid.2 ≠ StepOutcome.ok) :
    runSteps (pre ++ mid :: post) =
      (false, some mid.1, pre.map Prod.fst ++ [mid.1]) := by
  induction pre with
  | nil =>
    obtain ⟨n, a⟩ := mid
    cases a with
    | ok => exact absurd rfl hmid
    | failed => rfl
    | raised m => rfl
  | cons s rest ih =>
    have hs : s.2 = StepOutcome.ok := hpre s (by simp)
    obtain ⟨n, a⟩ := s
    subst hs
    have ih2 := ih (fun t ht => hpre t (by simp [ht]))
    simp [runSteps, ih2]

/-- C7 witness: the pipeline `[A succeeds, B raises, C]` reports failure at
B with trace `[A, B]`; C is never invoked. -/
theorem c7_witness :
    runSteps [("A", StepOutcome.ok), ("B", StepOutcome.raised "boom"),
              ("C", StepOutcome.ok)] =
      (false, some "B", ["A", "B"]) :=
  c7_pipeline_fail_fast [("A", StepOutcome.ok)] ("B", StepOutcome.raised "boom")
    [("C", StepOutcome.ok)] (by decide) (by decide)

/-- C8: when zero devices are enumerated, `run_app` and `install_apk` fail
immediately having invoked only the device-listing command — the underlying
run/install command never appears in the trace; when a device is present,
each operation's boolean result is exactly the underlying command's outcome
(exit status zero). -/
theorem c8_device_gating (w : DevWorld) (p : String) :
    ((check_connected_devices w).1 = false →
      run_app w = (false, [adbDevicesCmd]) ∧
      install_apk w p = (false, [adbDevicesCmd])) ∧
    ((check_connected_devices w).1 = true →
      run_app w = ((w.flutterRun.returncode == 0), [adbDevicesCmd, flutterRunCmd]) ∧
      install_apk w p =
        ((w.adbInstall.returncode == 0), [adbDevicesCmd, adbInstallCmd p])) := by
  constructor <;> intro h
  · simp [run_app, install_apk, h]
  · refine ⟨?_, ?_⟩
    · simp [run_app, h, run_command]
    · by_cases hrc : w.adbInstall.returncode = 0 <;>
        simp [install_apk, h, run_command, hrc]

/-- C8 witness: with no device attached both operations fail with only the
device-listing command invoked; with one device attached the install
succeeds and the install command is invoked. -/
theorem c8_witness :
    (run_app c8NoDevWorld = (false, [adbDevicesCmd]) ∧
     install_apk c8NoDevWorld "/tmp/app-debug.apk" = (false, [adbDevicesCmd])) ∧
    install_apk c8DevWorld "/tmp/app-debug.apk" =
      (true, [adbDevicesCmd, adbInstallCmd "/tmp/app-debug.apk"]) :=
  ⟨(c8_device_gating c8NoDevWorld "/tmp/app-debug.apk").1 (by decide),
   ((c8_device_gating c8DevWorld "/tmp/app-debug.apk").2 (by decide)).2⟩

/-- C9: for device-listing output consisting of a header line followed by
further lines (none containing a newline, the whole already stripped of
edge whitespace), the parsed device list is exactly the lines after the
header that are nonempty once stripped and not asterisk-prefixed, and
`check_connected_devices` reports that list's emptiness and its exact
count — zero devices is the defined result `(false, 0)`, not an error. -/
theorem c9_device_parsing (header : String) (ls : List String) (w : DevWorld)
    (hh : '\n' ∉ header.data)
    (hls : ∀ l ∈ ls, '\n' ∉ l.data)
    (hrc : w.adbDevices.returncode = 0)
    (hout : w.adbDevices.stdout.data =
      joinChar '\n' (header.data :: ls.map String.data))
    (hstrip : pyStripChars w.adbDevices.stdout.data = w.adbDevices.stdout.data)
    (hne : w.adbDevices.stdout ≠ "") :
    parse_devices w.adbDevices.stdout = ls.filter devLinePred ∧
    check_connected_devices w =
      (!(ls.filter devLinePred).isEmpty, (ls.filter devLinePred).length) := by
  have hstr : pyStrip w.adbDevices.stdout = w.adbDevices.stdout := by
    unfold pyStrip
    rw [hstrip]
  have hsplit : splitChar '\n' w.adbDevices.stdout.data =
      header.data :: ls.map String.data := by
    rw [hout]
    exact splitChar_joinChar _ _ _ hh (by
      intro m hm
      obtain ⟨l, hl, rfl⟩ := List.mem_map.mp hm
      exact hls l hl)
  have hmk : List.map (fun cs => (⟨cs⟩ : String)) (List.map String.data ls) = ls := by
    rw [List.map_map]
    exact List.map_id'' (fun x => rfl) ls
  have hparse : parse_devices w.adbDevices.stdout = ls.filter devLinePred := by
    unfold parse_devices pySplitNL
    rw [hstr, hsplit]
    simp only [List.map_cons, List.drop_succ_cons, List.drop_zero, hmk]
  refine ⟨hparse, ?_⟩
  have hne2 : (w.adbDevices.stdout == "") = false := by
    simp only [beq_eq_false_iff_ne]
    exact hne
  have hr : run_command adbDevicesCmd w.adbDevices true true =
      (true, w.adbDevices.stdout, w.adbDevices.stderr) := by
    simp [run_command, hrc]
  unfold check_connected_devices
  rw [hr]
  simp only [hne2, hparse, Bool.not_false, Bool.and_true, if_true]
  cases hemp : (ls.filter devLinePred).isEmpty with
  | true =>
    have hnil : ls.filter devLinePred = [] := List.isEmpty_iff.mp hemp
    simp [hnil]
  | false => simp [hemp]

/-- C9 witness: header plus two device lines plus one advisory line parses
to exactly the two device lines, and the count reported is 2. -/
theorem c9_witness :
    parse_devices c9World.adbDevices.stdout = c9Lines.filter devLinePred ∧
    check_connected_devices c9World = (true, 2) :=
  c9_device_parsing "List of devices attached" c9Lines c9World
    (by decide) (by decide) rfl (by decide) (by decide) (by decide)

/-- C10: the claim (read off the source text of `build_apk`) states that a
release build failing with marker-matching stderr whose debug fallback
succeeds yields overall success carrying the debug artifact path.  At
`c10World` — release build exits 1 with a minification message on the
tool's stderr, debug build would succeed and `app-debug.apk` would exist —
the orchestrator instead returns a plain failure with no artifact, having
invoked only the release command: the fallback branch never fires because
the stderr it tests is the caught `CalledProcessError` rendering. -/
theorem c10_fallback_dead_no_debug_artifact :
    FinSightRunner.build_apk c10World 9 .release =
      some (⟨false, none, none⟩, [FinSightRunner.buildCmd .release]) := by decide
